import Mathlib

/-
  Verification development for the session-recorder remote log streaming engine
  (src/session_recorder/device.py, store.py, cli.py).

  The Python code is shallowly embedded over `List Char`: each definition below
  mirrors one Python function or a per-iteration slice of one of its loops.
  Fallible Python code (code that may raise) is modelled with `Except Unit`,
  where `.error ()` stands for an uncaught exception (a `ValueError` from
  `datetime.strptime` in every case that arises here).
-/

namespace SessionRecorder

abbrev Chars := List Char

/-! ## Character classes of the Python regular expressions (ASCII range).
    The log lines consumed by this program are ASCII; Python's `\w`/`\s` are
    Unicode-aware but coincide with these classes on ASCII input. -/

/-- Python regex `\w`: letters, digits and underscore. -/
def isWordC (c : Char) : Bool := c.isAlphanum || c = '_'

/-- Python regex `\s` (and `str.strip` / `str.endswith` whitespace):
    space, tab, newline, carriage return, vertical tab, form feed. -/
def isPySpace (c : Char) : Bool :=
  c = ' ' || c = '\t' || c = '\n' || c = '\r' || c = '\x0b' || c = '\x0c'

/-- Python regex `.` (DOTALL off): any character except a newline. -/
def notNl (c : Char) : Bool := c != '\n'

/-! ## Small deterministic matching primitives.

    Every greedy element (`\d+`, `\w+`, `\s+`, `[0-?]*`, ...) in the patterns of
    `device.py` is followed by a token that cannot match a character of the
    element's own class, so Python's backtracking regex engine behaves exactly
    like the maximal-munch parsers below. Each primitive returns the consumed
    characters and the remaining input. -/

/-- Longest prefix satisfying `p`, with the rest of the input. -/
def spanP (p : Char → Bool) : Chars → Chars × Chars
  | [] => ([], [])
  | c :: rest =>
    if p c then
      let pr := spanP p rest
      (c :: pr.1, pr.2)
    else ([], c :: rest)

theorem spanP_snd_length_le (p : Char → Bool) (s : Chars) :
    (spanP p s).2.length ≤ s.length := by
  induction s with
  | nil => simp [spanP]
  | cons c rest ih =>
    simp only [spanP]
    by_cases hc : p c = true
    · simp only [hc, if_true, List.length_cons]
      omega
    · simp [hc]

/-- A single literal character. -/
def litC (c : Char) : Chars → Option (Chars × Chars)
  | [] => none
  | x :: rest => if x = c then some ([c], rest) else none

/-- Exactly `n` digits, regex `\d{n}` (the token after the repetition decides
    whether a longer digit run makes the whole pattern fail, as in Python). -/
def nDigits : Nat → Chars → Option (Chars × Chars)
  | 0, s => some ([], s)
  | _ + 1, [] => none
  | n + 1, x :: rest =>
    if x.isDigit then
      match nDigits n rest with
      | some pr => some (x :: pr.1, pr.2)
      | none => none
    else none

/-- Regex `\d+`: a maximal digit run of length at least one. -/
def digits1 (s : Chars) : Option (Chars × Chars) :=
  let pr := spanP Char.isDigit s
  if pr.1.isEmpty then none else some pr

/-- Regex `\w+`: a maximal word-character run of length at least one. -/
def word1 (s : Chars) : Option (Chars × Chars) :=
  let pr := spanP isWordC s
  if pr.1.isEmpty then none else some pr

/-- Regex `\s`: exactly one whitespace character. -/
def wsOne : Chars → Option (Chars × Chars)
  | [] => none
  | x :: rest => if isPySpace x then some ([x], rest) else none

/-- Regex `\s+`: a maximal whitespace run of length at least one. -/
def ws1 (s : Chars) : Option (Chars × Chars) :=
  let pr := spanP isPySpace s
  if pr.1.isEmpty then none else some pr

/-- Sequencing of two matching primitives, concatenating what they consume. -/
def pseq (f g : Chars → Option (Chars × Chars)) : Chars → Option (Chars × Chars) :=
  fun s =>
    match f s with
    | none => none
    | some pr =>
      match g pr.2 with
      | none => none
      | some qr => some (pr.1 ++ qr.1, qr.2)

/-- Sequencing of a list of matching primitives. -/
def pall : List (Chars → Option (Chars × Chars)) → Chars → Option (Chars × Chars)
  | [], s => some ([], s)
  | f :: fs, s => pseq f (pall fs) s

/-- A fixed literal word used by the regex alternation `INFO|DEBUG|ERROR|WARNING`. -/
def dropLit : Chars → Chars → Option Chars
  | [], s => some s
  | _ :: _, [] => none
  | c :: cs, x :: xs => if x = c then dropLit cs xs else none

/-- First alternative whose literal is a prefix of the input. The four level
    words start with pairwise distinct letters, so at most one alternative can
    match at a given position and the alternation is deterministic. -/
def oneOfLits : List Chars → Chars → Option (Chars × Chars)
  | [], _ => none
  | lit :: lits, s =>
    match dropLit lit s with
    | some rest => some (lit, rest)
    | none => oneOfLits lits s

/-! ## The timestamp sub-patterns of `LogHandler.extract_log_features`. -/

/-- Regex `\d{4}-\d{2}-\d{2}`. -/
def dateDashes : Chars → Option (Chars × Chars) :=
  pall [nDigits 4, litC '-', nDigits 2, litC '-', nDigits 2]

/-- Timestamp of the standard Isaac pattern:
    `\d{4}-\d{2}-\d{2} \d{2}:\d{2}:\d{2}\.\d{3}`. -/
def tsIsaac : Chars → Option (Chars × Chars) :=
  pall [dateDashes, litC ' ', nDigits 2, litC ':', nDigits 2, litC ':', nDigits 2,
        litC '.', nDigits 3]

/-- Timestamp of the Foundries ROS patterns (full and partial):
    `\d{4}-\d{2}-\d{2}T\d{2}:\d{2}:\d{2}\.\d+Z`. `\d+` is deterministic because
    the following literal `Z` is not a digit. -/
def tsFoundries : Chars → Option (Chars × Chars) :=
  pall [dateDashes, litC 'T', nDigits 2, litC ':', nDigits 2, litC ':', nDigits 2,
        litC '.', digits1, litC 'Z']

/-- Timestamp of the Foundries Isaac pattern:
    `\d{4}-\d{2}-\d{2}T\d{2}:\d{2}:\d{2}\.\d{9}Z` (exactly nine fraction digits). -/
def tsFoundriesIsaac : Chars → Option (Chars × Chars) :=
  pall [dateDashes, litC 'T', nDigits 2, litC ':', nDigits 2, litC ':', nDigits 2,
        litC '.', nDigits 9, litC 'Z']

/-- The named groups produced by a matching pattern of `extract_log_features`
    (Python `match.groupdict()`): `level` is `none` exactly when the matched
    pattern has no `level` group; none of the four patterns has a `component`
    group, so no `component` field is modelled here. -/
structure LineFeatures where
  timestamp : Chars
  level : Option Chars
  message : Chars
deriving DecidableEq, Repr

/-- Pattern 1 of `extract_log_features` ("Standard Isaac log pattern"):
    `(?P<timestamp>\d{4}-\d{2}-\d{2} \d{2}:\d{2}:\d{2}\.\d{3}) (?P<level>\w+) (?P<message>.+)`
    applied with `re.match` (anchored at the start, no end anchor). -/
def matchIsaacStd (s : Chars) : Option LineFeatures :=
  match tsIsaac s with
  | none => none
  | some ts =>
    match litC ' ' ts.2 with
    | none => none
    | some sp1 =>
      match word1 sp1.2 with
      | none => none
      | some lvl =>
        match litC ' ' lvl.2 with
        | none => none
        | some sp2 =>
          let msg := spanP notNl sp2.2
          if msg.1.isEmpty then none
          else some ⟨ts.1, some lvl.1, msg.1⟩

/-- Pattern 2 ("Foundries ROS log pattern"):
    `(?P<timestamp>...\.\d+Z)\s\[\w+-\d+\]\s\d+\.\d+\s(?P<level>INFO|DEBUG|ERROR|WARNING)\s(?P<message>.*)`. -/
def matchFoundriesRos (s : Chars) : Option LineFeatures :=
  match tsFoundries s with
  | none => none
  | some ts =>
    match pall [wsOne, litC '[', word1, litC '-', digits1, litC ']', wsOne,
                digits1, litC '.', digits1, wsOne] ts.2 with
    | none => none
    | some mid =>
      match oneOfLits ["INFO".data, "DEBUG".data, "ERROR".data, "WARNING".data] mid.2 with
      | none => none
      | some lvl =>
        match wsOne lvl.2 with
        | none => none
        | some sp =>
          let msg := spanP notNl sp.2
          some ⟨ts.1, some lvl.1, msg.1⟩

/-- Pattern 3 ("Foundries Isaac"):
    `^(?P<timestamp>...\.\d{9}Z)\s+\d{4}-\d{2}-\d{2}\s+\d{2}:\d{2}:\d{2}\.\d+\s+(?P<level>\w+)\s+(?P<message>.+)$`.
    The `$` anchor matches at the end of the string or just before one final
    newline. -/
def matchFoundriesIsaac (s : Chars) : Option LineFeatures :=
  match tsFoundriesIsaac s with
  | none => none
  | some ts =>
    match pall [ws1, dateDashes, ws1, nDigits 2, litC ':', nDigits 2, litC ':',
                nDigits 2, litC '.', digits1, ws1] ts.2 with
    | none => none
    | some mid =>
      match word1 mid.2 with
      | none => none
      | some lvl =>
        match ws1 lvl.2 with
        | none => none
        | some sp =>
          let msg := spanP notNl sp.2
          if msg.1.isEmpty then none
          else if msg.2 = [] || msg.2 = ['\n'] then some ⟨ts.1, some lvl.1, msg.1⟩
          else none

/-- Pattern 4 ("support for partial foundries ros log line"):
    `(?P<timestamp>...\.\d+Z)\s\[\w+-\d+\]\s(?P<message>.*)` — no `level` group. -/
def matchFoundriesRosPartLine (s : Chars) : Option LineFeatures :=
  match tsFoundries s with
  | none => none
  | some ts =>
    match pall [wsOne, litC '[', word1, litC '-', digits1, litC ']', wsOne] ts.2 with
    | none => none
    | some mid =>
      let msg := spanP notNl mid.2
      some ⟨ts.1, none, msg.1⟩

/-- `LogHandler.extract_log_features`: try the four patterns in order,
    first match wins, `None` when no pattern matches. -/
def extract_log_features (log_line : Chars) : Option LineFeatures :=
  match matchIsaacStd log_line with
  | some f => some f
  | none =>
    match matchFoundriesRos log_line with
    | some f => some f
    | none =>
      match matchFoundriesIsaac log_line with
      | some f => some f
      | none => matchFoundriesRosPartLine log_line

/-! ## `LogHandler.remove_ansi_colors` and `str.strip`. -/

/-- Range test on code points, used for the ANSI character classes. -/
def inCodeRange (lo hi : Nat) (c : Char) : Bool := lo ≤ c.toNat && c.toNat ≤ hi

/-- After an ESC byte, try to match the rest of the ANSI pattern: one byte in
    0x40..0x5F, then any bytes in 0x30..0x3F, then any bytes in 0x20..0x2F,
    then one final byte in 0x40..0x7E; return the input after the match. The
    three repeated classes are pairwise disjoint, so the greedy stars are
    deterministic. -/
def ansiTail (s : Chars) : Option Chars :=
  match s with
  | [] => none
  | c :: rest =>
    if inCodeRange 0x40 0x5f c then
      let r1 := spanP (inCodeRange 0x30 0x3f) rest
      let r2 := spanP (inCodeRange 0x20 0x2f) r1.2
      match r2.2 with
      | [] => none
      | f :: r3 => if inCodeRange 0x40 0x7e f then some r3 else none
    else none

theorem ansiTail_length_le {s r : Chars} (h : ansiTail s = some r) :
    r.length ≤ s.length := by
  cases s with
  | nil => simp [ansiTail] at h
  | cons c rest =>
    simp only [ansiTail] at h
    by_cases hc : inCodeRange 0x40 0x5f c = true
    · simp only [hc, if_true] at h
      have h1 : (spanP (inCodeRange 0x30 0x3f) rest).2.length ≤ rest.length :=
        spanP_snd_length_le _ rest
      have h2 : (spanP (inCodeRange 0x20 0x2f)
          (spanP (inCodeRange 0x30 0x3f) rest).2).2.length ≤
          (spanP (inCodeRange 0x30 0x3f) rest).2.length :=
        spanP_snd_length_le _ _
      revert h
      cases hr : (spanP (inCodeRange 0x20 0x2f) (spanP (inCodeRange 0x30 0x3f) rest).2).2 with
      | nil => intro h; simp at h
      | cons f r3 =>
        intro h
        by_cases hf : inCodeRange 0x40 0x7e f = true
        · simp only [hf, if_true, Option.some.injEq] at h
          rw [hr] at h2
          simp only [List.length_cons] at h2
          rw [← h]
          simp only [List.length_cons]
          omega
        · simp [hf] at h
    · simp [hc] at h

/-- `LogHandler.remove_ansi_colors`: `re.sub` of the ANSI escape pattern (ESC
    followed by the byte classes of `ansiTail`) with the empty string, scanning
    left to right over non-overlapping matches.
    Fuel (initialised to the input length) makes the recursion structural; each
    step consumes at least one input character, so the fuel never runs out. -/
def removeAnsiFuel : Nat → Chars → Chars
  | _, [] => []
  | 0, s => s
  | fuel + 1, c :: rest =>
    if c = '\x1b' then
      match ansiTail rest with
      | some r => removeAnsiFuel fuel r
      | none => c :: removeAnsiFuel fuel rest
    else c :: removeAnsiFuel fuel rest

def remove_ansi_colors (s : Chars) : Chars := removeAnsiFuel s.length s

/-- `str.strip()`: drop leading and trailing whitespace. -/
def pyStrip (s : Chars) : Chars :=
  ((s.dropWhile isPySpace).reverse.dropWhile isPySpace).reverse

/-! ## `datetime.strptime` for the two formats used by `convert_to_datetime`. -/

/-- A naive `datetime.datetime` value. Python compares datetimes
    lexicographically on these fields. -/
structure PyDateTime where
  year : Nat
  month : Nat
  day : Nat
  hour : Nat
  minute : Nat
  second : Nat
  microsecond : Nat
deriving DecidableEq, Repr

def digitsToNat (ds : Chars) : Nat :=
  ds.foldl (fun acc c => acc * 10 + (c.toNat - '0'.toNat)) 0

def isLeapYear (y : Nat) : Bool := (y % 4 = 0 && y % 100 ≠ 0) || y % 400 = 0

def daysInMonth (y m : Nat) : Nat :=
  if m = 2 then (if isLeapYear y then 29 else 28)
  else if m = 4 || m = 6 || m = 9 || m = 11 then 30
  else 31

/-- `%f` scales the matched one-to-six fraction digits to microseconds
    (right-padding with zeros to six digits). -/
def fracToMicro (ds : Chars) : Nat := digitsToNat ds * 10 ^ (6 - ds.length)

/-- One element of a strptime format string: a numeric directive matching
    exactly `n` digits, or a literal character. -/
inductive FmtItem where
  | digits (n : Nat)
  | lit (c : Char)
deriving DecidableEq, Repr

/-- Run a format item list, collecting the digit groups of the numeric
    directives as numbers, and return them with the unconsumed input. -/
def runFmt : List FmtItem → Chars → Option (List Nat × Chars)
  | [], s => some ([], s)
  | .digits n :: fmt, s =>
    match nDigits n s with
    | none => none
    | some pr =>
      match runFmt fmt pr.2 with
      | none => none
      | some qr => some (digitsToNat pr.1 :: qr.1, qr.2)
  | .lit c :: fmt, s =>
    match litC c s with
    | none => none
    | some pr => runFmt fmt pr.2

/-- `datetime.strptime(s, "%Y-%m-%dT%H:%M:%S.%f")` for `sep = 'T'` and
    `datetime.strptime(s, "%Y-%m-%d %H:%M:%S.%f")` for `sep = ' '`;
    `none` models the `ValueError` strptime raises when the string does not
    match the format, has unconverted trailing data, or carries out-of-range
    calendar fields (the `datetime` constructor check). The log-line matchers
    only ever supply zero-padded two-digit fields, on which this strict model
    agrees with Python (which would also accept unpadded one-digit fields). -/
def strptimeWithSep (sep : Char) (s : Chars) : Option PyDateTime :=
  match runFmt [.digits 4, .lit '-', .digits 2, .lit '-', .digits 2, .lit sep,
                .digits 2, .lit ':', .digits 2, .lit ':', .digits 2, .lit '.'] s with
  | some ([y, m, d, h, mnt, sc], s6) =>
    -- `%f` matches one to six digits; a seventh digit or any character after
    -- the fraction is "unconverted data" and raises ValueError.
    let fr := spanP Char.isDigit s6
    if fr.1.length = 0 ∨ 6 < fr.1.length ∨ fr.2 ≠ [] then none
    else if 1 ≤ y ∧ 1 ≤ m ∧ m ≤ 12 ∧ 1 ≤ d ∧ d ≤ daysInMonth y m ∧
        h ≤ 23 ∧ mnt ≤ 59 ∧ sc ≤ 59 then
      some ⟨y, m, d, h, mnt, sc, fracToMicro fr.1⟩
    else none
  | _ => none

/-- Python `str.split(sep)` for a single-character separator: every occurrence
    splits, `"".split(sep) == [""]`, and a trailing separator yields a final
    empty part. The result is always non-empty. -/
def pySplit (sep : Char) : Chars → List Chars
  | [] => [[]]
  | c :: rest =>
    if c = sep then [] :: pySplit sep rest
    else
      match pySplit sep rest with
      | [] => [[c]]
      | p :: ps => (c :: p) :: ps

/-- The try/except ladder shared by both strptime calls of
    `convert_to_datetime`: parse with the `T` format; on its ValueError, parse
    with the space format; a ValueError from the second call propagates out
    (`.error ()`), because an exception raised inside an `except ValueError`
    handler is not caught by the later bare `except` of the same statement. -/
def tryBothFormats (s : Chars) : Except Unit PyDateTime :=
  match strptimeWithSep 'T' s with
  | some dt => .ok dt
  | none =>
    match strptimeWithSep ' ' s with
    | some dt => .ok dt
    | none => .error ()

/-- `Log.convert_to_datetime` (device.py lines 268-284). If the string contains
    a dot, `timestamp, nanoseconds = timestamp.split(".")` binds the two parts
    (raising ValueError inside the `try` when there is not exactly one dot, a
    case the `except ValueError` handler then retries on the unmodified
    string), the fraction is truncated to its first six characters and the two
    strptime formats are tried on the reassembled string. The bare
    `except: return None` is unreachable for string input: every failure inside
    the `try` block is a ValueError. -/
def convert_to_datetime (timestamp : Chars) : Except Unit PyDateTime :=
  if timestamp.contains '.' then
    match pySplit '.' timestamp with
    | [t, nanoseconds] => tryBothFormats (t ++ '.' :: nanoseconds.take 6)
    | _ =>
      match strptimeWithSep ' ' timestamp with
      | some dt => .ok dt
      | none => .error ()
  else tryBothFormats timestamp

/-! ## `Log` records and `LogHandler.parse_line`. -/

/-- The `Log` class of device.py restricted to the fields `__init__` sets; the
    timestamp has already been converted (conversion happens in `__init__` and
    may raise, which `parse_line`, below, propagates). `component` is always
    `None` because no pattern defines a `component` group. -/
structure LogRec where
  timestamp : PyDateTime
  level : Chars
  message : Chars
  component : Option Chars
deriving DecidableEq, Repr

/-- `LogHandler.parse_line` (device.py lines 367-393): strip ANSI colour codes
    and whitespace, extract features with the ordered matchers, return `None`
    (here `.ok none`) when nothing matches, default a missing `level` to
    `"DEBUG"`, and build the `Log`. Constructing the `Log` converts the
    timestamp string, and a ValueError raised there escapes `parse_line`
    (`.error ()`). -/
def parse_line (line : Chars) : Except Unit (Option LogRec) :=
  let clean_line := pyStrip (remove_ansi_colors line)
  match extract_log_features clean_line with
  | none => .ok none
  | some f =>
    let lvl := f.level.getD ("DEBUG".data)
    match convert_to_datetime f.timestamp with
    | .ok dt => .ok (some ⟨dt, lvl, f.message, none⟩)
    | .error e => .error e

/-! ## `LogHandler.write`: the line reassembler. -/

/-- Python `string.endswith("\n")`. -/
def endsWithNl (s : Chars) : Bool :=
  match s.getLast? with
  | some c => c = '\n'
  | none => false

/-- `LogHandler.write` (device.py lines 302-324), acting on the
    `self.partial_line` state. The argument `pending` is the held fragment
    before the call; the result is the list of entries appended to
    `self.buffer` and the new held fragment. The method prepends the fragment,
    splits on `"\n"`, pops the final split segment into the fragment only when
    the combined string does not end with `"\n"`, and extends the buffer with
    the remaining segments (the emptiness guard before `extend` is a no-op and
    is modelled as such). -/
def write (pending chunk : Chars) : List Chars × Chars :=
  let string := pending ++ chunk
  let string_split := pySplit '\n' string
  if endsWithNl string then (string_split, [])
  else (string_split.dropLast, string_split.getLastD [])

/-- Spec-side definition (§4.4 of the specification, not from the code): the
    separator-terminated segments of a string are all split segments except the
    trailing unterminated fragment. -/
def specTerminatedSegs (s : Chars) : List Chars := (pySplit '\n' s).dropLast

/-- Spec-side definition: the trailing unterminated fragment of a string,
    empty when the string ends with the separator. -/
def specHeldFragment (s : Chars) : Chars :=
  if endsWithNl s then [] else (pySplit '\n' s).getLastD []

/-! ## The persistence sink and `LogHandler.flush`. -/

/-- A row of the `logs` table (store.py). Append order is `log_id` order. -/
structure SinkLog where
  frame_id : Option Nat
  timestamp : PyDateTime
  host_timestamp : PyDateTime
  level : Chars
  message : Chars
deriving DecidableEq, Repr

/-- Python `datetime` comparison: lexicographic on the fields. -/
def dtLt (a b : PyDateTime) : Bool :=
  if a.year ≠ b.year then decide (a.year < b.year)
  else if a.month ≠ b.month then decide (a.month < b.month)
  else if a.day ≠ b.day then decide (a.day < b.day)
  else if a.hour ≠ b.hour then decide (a.hour < b.hour)
  else if a.minute ≠ b.minute then decide (a.minute < b.minute)
  else if a.second ≠ b.second then decide (a.second < b.second)
  else decide (a.microsecond < b.microsecond)

/-- `DatabaseStorage.get_latest_log` (store.py lines 206-219): the row with the
    highest `log_id`, i.e. the most recently inserted row of the durable
    `logs` table, or `None` when the table is empty. -/
def get_latest_log (logs : List SinkLog) : Option SinkLog := logs.getLast?

/-- `DatabaseStorage.insert_log` (store.py lines 184-204): append a row. -/
def insert_log (logs : List SinkLog) (frame_id : Option Nat)
    (timestamp host_timestamp : PyDateTime) (level message : Chars) :
    List SinkLog :=
  logs ++ [⟨frame_id, timestamp, host_timestamp, level, message⟩]

/-- The per-record persistence step of `LogHandler.flush` (device.py lines
    330-360) for one parsed record: consult the durable sink's latest log; if
    there is none, insert; otherwise insert exactly when the record's device
    timestamp is strictly greater than the latest row's. `frame` is the result
    of `get_latest_frame_number` and `host` the `datetime.now(timezone.utc)`
    host timestamp taken in the same iteration. -/
def flushRecord (logs : List SinkLog) (frame : Option Nat) (host : PyDateTime)
    (rec : LogRec) : List SinkLog :=
  match get_latest_log logs with
  | some latest_log =>
    if dtLt latest_log.timestamp rec.timestamp then
      insert_log logs frame rec.timestamp host rec.level rec.message
    else logs
  | none => insert_log logs frame rec.timestamp host rec.level rec.message

/-! ## `RemoteLogTailer.establish_connection`: bounded retries with
    exponential backoff. -/

/-- The retry loop of `establish_connection` (device.py lines 66-93), started
    at attempt index `k` with `fuel = max_retries - retries` remaining
    attempts and the current value of the instance attribute `backoff_time`.
    `outcomes k` tells whether the `k`-th connection attempt of this invocation
    succeeds. Returns (success flag, the list of sleep durations in order, the
    final value of `backoff_time`). On each failure the loop sleeps
    `backoff_time` seconds and then doubles `backoff_time`; on success it
    returns immediately; when the attempts are exhausted it returns failure. -/
def establishFrom (outcomes : Nat → Bool) : Nat → Nat → Nat → Bool × List Nat × Nat
  | 0, backoff_time, _ => (false, [], backoff_time)
  | fuel + 1, backoff_time, k =>
    if outcomes k then (true, [], backoff_time)
    else
      let r := establishFrom outcomes fuel (backoff_time * 2) (k + 1)
      (r.1, backoff_time :: r.2.1, r.2.2)

/-- One invocation of `establish_connection`: the loop starts with
    `retries = 0` and the instance's current `backoff_time`. The attribute is
    initialised to 5 in `__init__` and is never reset between invocations. -/
def establish_connection (max_retries backoff_time : Nat) (outcomes : Nat → Bool) :
    Bool × List Nat × Nat :=
  establishFrom outcomes max_retries backoff_time 0

/-- The initial value of `self.backoff_time` set by `RemoteLogTailer.__init__`. -/
def initialBackoffTime : Nat := 5

/-! ## Exception handling of the tail loop and the heartbeat monitor. -/

/-- The Python exception types relevant to the two `except` clauses of
    device.py, plus representatives of types they do not name: `valueError`
    (raised by `datetime.strptime` escaping `parse_line` during stream
    processing) and `otherError` (any further `Exception` subtype). -/
inductive PyExc where
  | sshException
  | timeoutError
  | connectionError
  | unexpectedExit
  | osError
  | commandTimedOut
  | eofError
  | valueError
  | otherError
deriving DecidableEq, Repr

/-- The `except (SSHException, TimeoutError, ConnectionError, UnexpectedExit)`
    clause of `RemoteLogTailer.run_tail_f_logs` (device.py line 124). -/
def tailLoopCaught : PyExc → Bool
  | .sshException => true
  | .timeoutError => true
  | .connectionError => true
  | .unexpectedExit => true
  | _ => false

/-- The `except (SSHException, TimeoutError, ConnectionError, UnexpectedExit,
    OSError, CommandTimedOut, EOFError)` clause of `RemoteLogTailer.heartbeat`
    (device.py lines 172-180). -/
def heartbeatCaught : PyExc → Bool
  | .sshException => true
  | .timeoutError => true
  | .connectionError => true
  | .unexpectedExit => true
  | .osError => true
  | .commandTimedOut => true
  | .eofError => true
  | _ => false

/-- Outcome of one iteration of the `while self.tail_active` loop of
    `run_tail_f_logs`. -/
inductive TailOutcome where
  /-- An exception was caught: sleep `backoff_time`, call
      `establish_connection`, and loop again. -/
  | keepTailing (sleepSecs : Nat) (reconnects : Bool)
  /-- `c.run` returned without raising: the end of the stream is logged and the
      loop runs again. -/
  | streamEnded
  /-- An exception not matched by the `except` clause propagates and terminates
      the loop (and the thread running it). -/
  | crashed (e : PyExc)
deriving DecidableEq, Repr

/-- One iteration of the tail loop body (device.py lines 111-129).
    `runResult = some e` means processing the stream — `c.run` together with
    the `LogHandler` `write`/`flush` callbacks it drives — raised `e`;
    `none` means the command finished normally. With no connection object the
    body itself raises `ConnectionError`, which the clause catches. -/
def runTailIteration (backoff_time : Nat) (hasConn : Bool)
    (runResult : Option PyExc) : TailOutcome :=
  if hasConn then
    match runResult with
    | none => .streamEnded
    | some e => if tailLoopCaught e then .keepTailing backoff_time true else .crashed e
  else .keepTailing backoff_time true

/-- Result of the probe a heartbeat cycle issues. -/
inductive ProbeResult where
  /-- The watchdog `thread.join(timeout)` expired:
      `run_command_with_timeout` returns a `ConnectionError` instance. -/
  | timedOut
  /-- The probe raised `e`; the worker stored it and the cycle re-raises it via
      `raise result`. -/
  | raised (e : PyExc)
  /-- The probe finished; `failed` is the `result.failed` flag (a failure makes
      the cycle raise `ConnectionError`). -/
  | finished (failed : Bool)
deriving DecidableEq, Repr

/-- Outcome of one cycle of the `while self.heartbeat_active` loop. -/
inductive HeartbeatOutcome where
  /-- Probe succeeded; sleep `heartbeat_interval` and continue. -/
  | healthy
  /-- An exception was caught: stop the tail, sleep `backoff_time`,
      re-establish, restart the tail, and continue to the next interval. -/
  | reconnected (sleepSecs : Nat)
  /-- No live connection: call `establish_connection` and continue. -/
  | establishedOnly
  /-- An exception not matched by the `except` clause propagates (through the
      `finally`) and terminates the monitor loop. -/
  | crashed (e : PyExc)
deriving DecidableEq, Repr

/-- One cycle of `RemoteLogTailer.heartbeat` (device.py lines 158-192). -/
def heartbeatCycle (backoff_time : Nat) (hasConn : Bool) (probe : ProbeResult) :
    HeartbeatOutcome :=
  if hasConn then
    match probe with
    | .timedOut => .reconnected backoff_time
    | .raised e =>
      if heartbeatCaught e then .reconnected backoff_time else .crashed e
    | .finished failed => if failed then .reconnected backoff_time else .healthy
  else .establishedOnly

/-! ## Command selection for the tail session. -/

/-- Python truthiness of an optional string: `None` and `""` are falsy. -/
def pyTruthy : Option Chars → Bool
  | none => false
  | some s => !s.isEmpty

/-- Python `str(x)` as used by an f-string on an optional value. -/
def pyShow : Option Chars → Chars
  | none => "None".data
  | some s => s

/-- `Project.__setup_tail_details__` (store.py lines 424-441): the
    `target_tail_type` attribute after setup — `"log"` when a log path is
    truthy, else `"docker"` when a container id is truthy, else it keeps its
    initial value `None`. -/
def setup_tail_type (target_log_path target_docker_container : Option Chars) :
    Option Chars :=
  if pyTruthy target_log_path then some ("log".data)
  else if pyTruthy target_docker_container then some ("docker".data)
  else none

/-- The command chosen by `RemoteLogTailer.run_tail_f_logs` (device.py lines
    103-108): `tail -f` on the file when `self.log_file` is truthy, else the
    `docker logs` follow command with timestamps and a 100-entry backlog. -/
def tailCommand (log_file docker_container : Option Chars) : Chars :=
  if pyTruthy log_file then "tail -f ".data ++ pyShow log_file
  else "docker logs ".data ++ pyShow docker_container ++ " -f -t -n 100".data

/-- The composite behaviour of the `record` CLI command (cli.py lines 66-78)
    for the tail session: a `RemoteLogTailer` is created (and a tail session
    run with `tailCommand`) only when `project.target_tail_type` is truthy;
    with neither target configured no tailer exists and no command runs. -/
def recordTailCommand (target_log_path target_docker_container : Option Chars) :
    Option Chars :=
  match setup_tail_type target_log_path target_docker_container with
  | none => none
  | some _ => some (tailCommand target_log_path target_docker_container)

/-! ## Helper lemmas about `pySplit`. -/

theorem pySplit_ne_nil (sep : Char) (s : Chars) : pySplit sep s ≠ [] := by
  cases s with
  | nil => simp [pySplit]
  | cons c rest =>
    simp only [pySplit]
    by_cases hc : c = sep
    · simp [hc]
    · simp only [hc, if_false]
      cases h : pySplit sep rest <;> simp

theorem pySplit_no_sep {sep : Char} {s : Chars} (h : sep ∉ s) :
    pySplit sep s = [s] := by
  induction s with
  | nil => rfl
  | cons c rest ih =>
    have hc : ¬ c = sep := fun hcc => h (hcc ▸ List.mem_cons_self c rest)
    have hrest : sep ∉ rest := fun hm => h (List.mem_cons_of_mem c hm)
    simp only [pySplit, hc, if_false, ih hrest]

theorem pySplit_cons_sep {sep : Char} {d : Chars} (f : Chars) (h : sep ∉ d) :
    pySplit sep (d ++ sep :: f) = d :: pySplit sep f := by
  induction d with
  | nil => simp [pySplit]
  | cons c t ih =>
    have hc : ¬ c = sep := fun hcc => h (hcc ▸ List.mem_cons_self c t)
    have ht : sep ∉ t := fun hm => h (List.mem_cons_of_mem c hm)
    rw [List.cons_append]
    simp only [pySplit, hc, if_false]
    rw [ih ht]

theorem pySplit_two_parts {sep : Char} {d f : Chars} (hd : sep ∉ d) (hf : sep ∉ f) :
    pySplit sep (d ++ sep :: f) = [d, f] := by
  rw [pySplit_cons_sep f hd, pySplit_no_sep hf]

theorem pySplit_append_sep (sep : Char) (t : Chars) :
    pySplit sep (t ++ [sep]) = pySplit sep t ++ [[]] := by
  induction t with
  | nil => simp [pySplit]
  | cons c t ih =>
    rw [List.cons_append]
    by_cases hc : c = sep
    · subst hc
      simp only [pySplit, eq_self_iff_true, if_true, ih]
      rfl
    · simp only [pySplit, hc, if_false, ih]
      cases hps : pySplit sep t with
      | nil => exact absurd hps (pySplit_ne_nil sep t)
      | cons p ps => simp

theorem not_mem_of_mem_pySplit {sep : Char} :
    ∀ {s part : Chars}, part ∈ pySplit sep s → sep ∉ part := by
  intro s
  induction s with
  | nil =>
    intro part h
    simp only [pySplit, List.mem_singleton] at h
    subst h
    simp
  | cons c rest ih =>
    intro part h
    by_cases hc : c = sep
    · have hunfold : pySplit sep (c :: rest) = [] :: pySplit sep rest := by
        simp [pySplit, hc]
      rw [hunfold] at h
      rcases List.mem_cons.mp h with h1 | h1
      · subst h1; simp
      · exact ih h1
    · simp only [pySplit, hc, if_false] at h
      cases hps : pySplit sep rest with
      | nil => exact absurd hps (pySplit_ne_nil sep rest)
      | cons p ps =>
        rw [hps] at h
        rcases List.mem_cons.mp h with h1 | h1
        · subst h1
          intro hm
          rcases List.mem_cons.mp hm with h2 | h2
          · exact hc h2.symm
          · have hp : p ∈ pySplit sep rest := by
              rw [hps]; exact List.mem_cons_self p ps
            exact ih hp h2
        · have hp : part ∈ pySplit sep rest := by
            rw [hps]; exact List.mem_cons_of_mem p h1
          exact ih hp

theorem endsWithNl_concat {s : Chars} (h : endsWithNl s = true) :
    ∃ t, s = t ++ ['\n'] := by
  induction s with
  | nil => simp [endsWithNl] at h
  | cons c rest ih =>
    cases rest with
    | nil =>
      simp only [endsWithNl, List.getLast?_singleton] at h
      have : c = '\n' := by simpa using h
      exact ⟨[], by simp [this]⟩
    | cons d rest2 =>
      have h2 : endsWithNl (d :: rest2) = true := by
        simpa only [endsWithNl, List.getLast?_cons_cons] using h
      obtain ⟨t, ht⟩ := ih h2
      exact ⟨c :: t, by rw [List.cons_append, ← ht]⟩

theorem getLastD_mem {α : Type} :
    ∀ (l : List α) (d : α), l ≠ [] → l.getLastD d ∈ l := by
  intro l
  induction l with
  | nil => intro d h; exact absurd rfl h
  | cons a t ih =>
    intro d _
    cases ht : t with
    | nil => simp [List.getLastD]
    | cons b t2 =>
      have hmem := ih d (by rw [ht]; exact List.cons_ne_nil b t2)
      rw [ht] at hmem
      simp only [List.getLastD]
      exact List.mem_cons_of_mem a hmem

theorem contains_of_mem {c : Char} {s : Chars} (h : c ∈ s) : s.contains c = true := by
  simpa [List.contains] using List.elem_iff.mpr h

/-! ## Backoff-series lemmas for `establish_connection`. -/

theorem backoff_series_shift (b N : Nat) :
    (List.range (N + 1)).map (fun k => b * 2 ^ k) =
      b :: (List.range N).map (fun k => b * 2 * 2 ^ k) := by
  rw [List.range_succ_eq_map]
  simp only [List.map_cons, List.map_map, pow_zero, mul_one]
  congr 1
  apply List.map_congr_left
  intro k _
  simp only [Function.comp_apply, pow_succ]
  ring

theorem establishFrom_success (out : Nat → Bool) :
    ∀ (N fuel b j : Nat), N < fuel → (∀ k, k < N → out (j + k) = false) →
      out (j + N) = true →
      establishFrom out fuel b j =
        (true, (List.range N).map (fun k => b * 2 ^ k), b * 2 ^ N) := by
  intro N
  induction N with
  | zero =>
    intro fuel b j hf _ hN
    cases fuel with
    | zero => omega
    | succ m =>
      rw [Nat.add_zero] at hN
      simp [establishFrom, hN]
  | succ N ih =>
    intro fuel b j hf h0 hN
    cases fuel with
    | zero => omega
    | succ m =>
      have hj : out j = false := by simpa using h0 0 (Nat.succ_pos N)
      simp only [establishFrom, hj, Bool.false_eq_true, if_false]
      rw [ih m (b * 2) (j + 1) (by omega)
        (fun k hk => by
          have := h0 (k + 1) (by omega)
          rwa [show j + (k + 1) = j + 1 + k by omega] at this)
        (by rwa [show j + 1 + N = j + (N + 1) by omega])]
      rw [backoff_series_shift]
      refine Prod.ext rfl (Prod.ext rfl ?_)
      simp only [pow_succ]
      ring

theorem establishFrom_allfail (out : Nat → Bool) :
    ∀ (fuel b j : Nat), (∀ k, k < fuel → out (j + k) = false) →
      establishFrom out fuel b j =
        (false, (List.range fuel).map (fun k => b * 2 ^ k), b * 2 ^ fuel) := by
  intro fuel
  induction fuel with
  | zero => intro b j _; simp [establishFrom]
  | succ m ih =>
    intro b j h
    have hj : out j = false := by simpa using h 0 (Nat.succ_pos m)
    simp only [establishFrom, hj, Bool.false_eq_true, if_false]
    rw [ih (b * 2) (j + 1)
      (fun k hk => by
        have := h (k + 1) (by omega)
        rwa [show j + (k + 1) = j + 1 + k by omega] at this)]
    rw [backoff_series_shift]
    refine Prod.ext rfl (Prod.ext rfl ?_)
    simp only [pow_succ]
    ring

/-! ## The claims. -/

/-- Claim C1: for every parsed record reaching the persistence step of
    `LogHandler.flush`, if the durable sink holds no prior log record the
    record is inserted; otherwise it is inserted if and only if its device
    timestamp is strictly greater than the device timestamp of the last
    persisted record (equal-or-older records are never inserted, leaving the
    sink unchanged); the reference record is `get_latest_log` of the durable
    sink state. -/
theorem c1_flush_insert_decision (logs : List SinkLog) (frame : Option Nat)
    (host : PyDateTime) (rec : LogRec) :
    (get_latest_log logs = none →
      flushRecord logs frame host rec =
        insert_log logs frame rec.timestamp host rec.level rec.message) ∧
    (∀ last, get_latest_log logs = some last →
      (dtLt last.timestamp rec.timestamp = true →
        flushRecord logs frame host rec =
          insert_log logs frame rec.timestamp host rec.level rec.message) ∧
      (dtLt last.timestamp rec.timestamp = false →
        flushRecord logs frame host rec = logs)) := by
  refine ⟨fun h => ?_, fun last h => ⟨fun hlt => ?_, fun hlt => ?_⟩⟩
  · simp [flushRecord, h]
  · simp [flushRecord, h, hlt]
  · simp [flushRecord, h, hlt]

theorem c1_flush_insert_decision_w :
    flushRecord [] none ⟨2024, 1, 1, 0, 0, 0, 0⟩
        ⟨⟨2024, 1, 1, 0, 0, 0, 1⟩, "INFO".data, "m".data, none⟩ =
      insert_log [] none ⟨2024, 1, 1, 0, 0, 0, 1⟩ ⟨2024, 1, 1, 0, 0, 0, 0⟩
        "INFO".data "m".data :=
  (c1_flush_insert_decision [] none ⟨2024, 1, 1, 0, 0, 0, 0⟩
    ⟨⟨2024, 1, 1, 0, 0, 0, 1⟩, "INFO".data, "m".data, none⟩).1 rfl

/-- Claim C2, counterexample: feeding `"abc"` then `"def\n"` does not yield
    exactly one line `"abcdef"`: because the combined string ends with the
    separator, Python's `split` leaves a final empty segment which `write`
    appends to the buffer as an extra (empty) line. -/
theorem c2_reassembler_counterexample :
    write [] ("abc".data) = ([], "abc".data) ∧
    (write (write [] ("abc".data)).2 ("def\n".data)).1 = ["abcdef".data, []] ∧
    ["abcdef".data, []] ≠ ["abcdef".data] :=
  ⟨by decide, by decide, by decide⟩

/-- Claim C2 as amended: each `write` call prepends the held fragment, emits
    the separator-terminated segments in arrival order — plus one extra empty
    line whenever the combined string ends with the separator — and retains the
    trailing unterminated fragment (empty when the string ends with the
    separator); feeding `"abc"` then `"def\n"` yields the lines
    `["abcdef", ""]` with empty leftover, and feeding `"line1\nline2\npart"`
    yields `["line1", "line2"]` with leftover `"part"`. -/
theorem c2_reassembler_amended (pending chunk : Chars) :
    write pending chunk =
      (specTerminatedSegs (pending ++ chunk) ++
        (if endsWithNl (pending ++ chunk) then [[]] else []),
       specHeldFragment (pending ++ chunk)) ∧
    write ("abc".data) ("def\n".data) = (["abcdef".data, []], []) ∧
    write [] ("line1\nline2\npart".data) =
      (["line1".data, "line2".data], "part".data) := by
  refine ⟨?_, by decide, by decide⟩
  unfold write specTerminatedSegs specHeldFragment
  by_cases h : endsWithNl (pending ++ chunk)
  · simp only [h, if_true]
    obtain ⟨t, ht⟩ := endsWithNl_concat h
    rw [ht, pySplit_append_sep]
    simp
  · simp [h]

/-- Claim C3: a line whose matcher matches but whose timestamp is malformed is
    dropped rather than raising — refuted by the code: on this line, matched by
    the fourth (no-level) pattern, the four-digit fraction keeps its trailing
    `Z` after truncation, both strptime formats fail, and the resulting
    `ValueError` escapes `parse_line` (the bare `except` of
    `convert_to_datetime` cannot catch an exception raised inside the
    `except ValueError` handler). -/
theorem c3_parse_line_raises_on_matched_line :
    extract_log_features
        ("2024-07-25T14:16:38.1824Z [iw_brain_exe-23] is_retry: false".data) =
      some ⟨"2024-07-25T14:16:38.1824Z".data, none, "is_retry: false".data⟩ ∧
    parse_line ("2024-07-25T14:16:38.1824Z [iw_brain_exe-23] is_retry: false".data) =
      .error () :=
  ⟨by decide, by rfl⟩

/-- Claim C4, counterexample: the delay schedule does not hold for every
    invocation of `establish_connection` on the same instance: `backoff_time`
    is an instance attribute that is never reset, so after a first invocation
    that slept 5 seconds (base * 2^0), a second invocation with the same
    outcomes sleeps 10 seconds after its first failure instead of 5. -/
theorem c4_backoff_not_reset_counterexample :
    (establish_connection 5 initialBackoffTime (fun k => decide (1 ≤ k))).2.1 = [5] ∧
    (establish_connection 5
        (establish_connection 5 initialBackoffTime (fun k => decide (1 ≤ k))).2.2
        (fun k => decide (1 ≤ k))).2.1 = [10] ∧
    ([10] : List Nat) ≠ [5] :=
  ⟨by decide, by decide, by decide⟩

/-- Claim C4 as amended: within a single invocation of `establish_connection`
    entered with `backoff_time` value `b` (5 on the first invocation after
    construction, since `__init__` sets 5 and the attribute is never reset
    afterwards), the sleep after the k-th consecutive failed attempt is
    `b * 2^k`; at most `max_retries` attempts are made, and after `max_retries`
    consecutive failures the invocation returns Failure, having slept the full
    series and leaving `backoff_time` at `b * 2^max_retries`. -/
theorem c4_backoff_per_invocation (out : Nat → Bool) (maxR b N : Nat) :
    (N < maxR → (∀ k, k < N → out k = false) → out N = true →
      establish_connection maxR b out =
        (true, (List.range N).map (fun k => b * 2 ^ k), b * 2 ^ N)) ∧
    ((∀ k, k < maxR → out k = false) →
      establish_connection maxR b out =
        (false, (List.range maxR).map (fun k => b * 2 ^ k), b * 2 ^ maxR)) := by
  constructor
  · intro h1 h2 h3
    exact establishFrom_success out N maxR b 0 h1
      (fun k hk => by simpa using h2 k hk) (by simpa using h3)
  · intro h
    exact establishFrom_allfail out maxR b 0 (fun k hk => by simpa using h k hk)

theorem c4_backoff_per_invocation_w :
    establish_connection 5 5 (fun k => decide (2 ≤ k)) =
      (true, (List.range 2).map (fun k => 5 * 2 ^ k), 5 * 2 ^ 2) :=
  (c4_backoff_per_invocation (fun k => decide (2 ≤ k)) 5 5 2).1 (by decide)
    (by decide) (by decide)

/-- Claim C5, counterexample: not every exception raised while processing
    stream bytes is caught at the tail-loop boundary: the `except` clause of
    `run_tail_f_logs` names only the four transport exception types, so a
    `ValueError` — which does escape line parsing, as the second conjunct
    shows on a concrete stream line — terminates the tail loop. -/
theorem c5_tail_loop_crash_counterexample :
    runTailIteration 5 true (some PyExc.valueError) =
      TailOutcome.crashed PyExc.valueError ∧
    parse_line ("2024-02-02T02:02:02.22Z [worker-2] retrying".data) = .error () :=
  ⟨by rfl, by rfl⟩

/-- Claim C5 as amended: exceptions of the four transport types named by the
    `except` clause (`SSHException`, `TimeoutError`, `ConnectionError`,
    `UnexpectedExit`) are caught at the tail-loop boundary and converted into a
    sleep of `backoff_time`, a reconnect and a retry of the follow command;
    exceptions of other types terminate the tail loop. -/
theorem c5_tail_loop_transport_exceptions (b : Nat) (e : PyExc)
    (h : e = PyExc.sshException ∨ e = PyExc.timeoutError ∨
      e = PyExc.connectionError ∨ e = PyExc.unexpectedExit) :
    runTailIteration b true (some e) = TailOutcome.keepTailing b true := by
  rcases h with h | h | h | h <;> subst h <;> rfl

theorem c5_tail_loop_transport_exceptions_w :
    runTailIteration 5 true (some PyExc.sshException) =
      TailOutcome.keepTailing 5 true :=
  c5_tail_loop_transport_exceptions 5 PyExc.sshException (Or.inl rfl)

/-- Claim C6, counterexample: the heartbeat monitor can terminate itself on
    error: a probe raising an exception outside the seven types named by the
    `except` clause (here a `ValueError`, re-raised by the cycle via
    `raise result`) propagates and ends the monitor loop. -/
theorem c6_heartbeat_crash_counterexample :
    heartbeatCycle 5 true (ProbeResult.raised PyExc.valueError) =
      HeartbeatOutcome.crashed PyExc.valueError ∧
    heartbeatCycle 5 true (ProbeResult.raised PyExc.otherError) =
      HeartbeatOutcome.crashed PyExc.otherError :=
  ⟨by rfl, by rfl⟩

/-- Claim C6 as amended: while the heartbeat-active signal is true, a cycle
    whose probe times out, fails, or raises one of the seven exception types
    named by the `except` clause logs the failure and performs the reconnect
    handling, then proceeds to the next interval; a successful probe leaves the
    monitor healthy; only an exception outside those types ends the loop. -/
theorem c6_heartbeat_caught_exceptions (b : Nat) (e : PyExc)
    (h : heartbeatCaught e = true) :
    heartbeatCycle b true (ProbeResult.raised e) = HeartbeatOutcome.reconnected b ∧
    heartbeatCycle b true ProbeResult.timedOut = HeartbeatOutcome.reconnected b ∧
    heartbeatCycle b true (ProbeResult.finished true) = HeartbeatOutcome.reconnected b ∧
    heartbeatCycle b true (ProbeResult.finished false) = HeartbeatOutcome.healthy := by
  refine ⟨?_, rfl, rfl, rfl⟩
  simp [heartbeatCycle, h]

theorem c6_heartbeat_caught_exceptions_w :
    heartbeatCycle 5 true (ProbeResult.raised PyExc.connectionError) =
      HeartbeatOutcome.reconnected 5 :=
  (c6_heartbeat_caught_exceptions 5 PyExc.connectionError (by rfl)).1

/-- Claim C7: if a log file path is configured the tail session runs
    `tail -f` on that path; otherwise, if a docker container id is configured,
    it runs the `docker logs` follow command with a 100-entry backlog; and if
    neither is configured, no tailer is created and no command runs at all. -/
theorem c7_command_selection (lp dc : Option Chars) :
    (pyTruthy lp = true →
      recordTailCommand lp dc = some ("tail -f ".data ++ pyShow lp)) ∧
    (pyTruthy lp = false → pyTruthy dc = true →
      recordTailCommand lp dc =
        some ("docker logs ".data ++ pyShow dc ++ " -f -t -n 100".data)) ∧
    (pyTruthy lp = false → pyTruthy dc = false →
      recordTailCommand lp dc = none) := by
  refine ⟨fun h1 => ?_, fun h1 h2 => ?_, fun h1 h2 => ?_⟩
  · simp [recordTailCommand, setup_tail_type, tailCommand, h1]
  · simp [recordTailCommand, setup_tail_type, tailCommand, h1, h2]
  · simp [recordTailCommand, setup_tail_type, h1, h2]

theorem c7_command_selection_w :
    recordTailCommand (some ("app.log".data)) none =
      some ("tail -f ".data ++ pyShow (some ("app.log".data))) ∧
    recordTailCommand none (some ("brain".data)) =
      some ("docker logs ".data ++ pyShow (some ("brain".data)) ++
        " -f -t -n 100".data) ∧
    recordTailCommand none none = none :=
  ⟨(c7_command_selection (some ("app.log".data)) none).1 (by decide),
   (c7_command_selection none (some ("brain".data))).2.1 (by decide) (by decide),
   (c7_command_selection none none).2.2 (by decide) (by decide)⟩

/-- Claim C8: when the fractional-second component of a timestamp string has
    more than six digits, `convert_to_datetime` truncates the fraction to its
    first six characters before parsing (the general equation), and timestamps
    in both the `T`-separated and the space-separated form are accepted and
    yield the corresponding microsecond-precision datetime (the two concrete
    conjuncts, with nine- and seven-digit fractions). -/
theorem c8_timestamp_truncation (d f : Chars) (hd : '.' ∉ d) (hf : '.' ∉ f)
    (_hlen : 6 < f.length) :
    convert_to_datetime (d ++ '.' :: f) = tryBothFormats (d ++ '.' :: f.take 6) ∧
    convert_to_datetime ("2024-10-28T13:36:00.655659681Z".data) =
      .ok ⟨2024, 10, 28, 13, 36, 0, 655659⟩ ∧
    convert_to_datetime ("2024-06-25 13:00:35.1520009".data) =
      .ok ⟨2024, 6, 25, 13, 0, 35, 152000⟩ := by
  refine ⟨?_, by rfl, by rfl⟩
  have hc : (d ++ '.' :: f).contains '.' = true :=
    contains_of_mem (List.mem_append_right d (List.mem_cons_self '.' f))
  simp only [convert_to_datetime, hc, if_true]
  rw [pySplit_two_parts hd hf]

theorem c8_timestamp_truncation_w :
    convert_to_datetime ("2024-10-28T13:36:00".data ++ '.' :: "655659681Z".data) =
      tryBothFormats ("2024-10-28T13:36:00".data ++ '.' :: ("655659681Z".data).take 6) :=
  (c8_timestamp_truncation ("2024-10-28T13:36:00".data) ("655659681Z".data)
    (by decide) (by decide) (by decide)).1

/-- Claim C9, counterexample: a line matching the no-level (fourth) format for
    which `parse_line` raises instead of returning a DEBUG record — the
    three-digit fraction keeps its `Z` after truncation and the strptime
    `ValueError` escapes, so the claim does not hold for every line matching a
    no-level format. -/
theorem c9_level_default_counterexample :
    extract_log_features ("2024-01-01T00:00:00.123Z [node-1] hello".data) =
      some ⟨"2024-01-01T00:00:00.123Z".data, none, "hello".data⟩ ∧
    parse_line ("2024-01-01T00:00:00.123Z [node-1] hello".data) = .error () :=
  ⟨by decide, by rfl⟩

/-- Claim C9 as amended: whenever `parse_line` returns a record for a line, a
    matched format providing no level field yields the level `DEBUG`, and a
    matched format providing a level yields exactly that matched level. -/
theorem c9_level_default (line : Chars) (f : LineFeatures) (r : LogRec)
    (hf : extract_log_features (pyStrip (remove_ansi_colors line)) = some f)
    (hr : parse_line line = .ok (some r)) :
    (f.level = none → r.level = "DEBUG".data) ∧
    (∀ lv, f.level = some lv → r.level = lv) := by
  unfold parse_line at hr
  simp only [hf] at hr
  cases hcv : convert_to_datetime f.timestamp with
  | ok dt =>
    rw [hcv] at hr
    simp only [Except.ok.injEq, Option.some.injEq] at hr
    subst hr
    refine ⟨fun hl => ?_, fun lv hl => ?_⟩
    · simp [hl]
    · simp [hl]
  | error e =>
    rw [hcv] at hr
    simp at hr

theorem c9_level_default_w :
    parse_line ("2024-07-25T14:16:38.182418000Z [iw_brain_exe-23] is_retry: false".data) =
      .ok (some ⟨⟨2024, 7, 25, 14, 16, 38, 182418⟩, "DEBUG".data,
        "is_retry: false".data, none⟩) ∧
    (⟨⟨2024, 7, 25, 14, 16, 38, 182418⟩, "DEBUG".data,
        "is_retry: false".data, none⟩ : LogRec).level = "DEBUG".data := by
  refine ⟨by rfl, ?_⟩
  exact (c9_level_default
    ("2024-07-25T14:16:38.182418000Z [iw_brain_exe-23] is_retry: false".data)
    ⟨"2024-07-25T14:16:38.182418000Z".data, none, "is_retry: false".data⟩
    ⟨⟨2024, 7, 25, 14, 16, 38, 182418⟩, "DEBUG".data, "is_retry: false".data, none⟩
    (by decide) (by rfl)).1 rfl

/-- Claim C10: `write` is total on all string inputs (the Lean function is),
    and after every call the held partial-line fragment contains no newline
    separator: it is always either empty or the final unterminated segment of
    the combined input. -/
theorem c10_reassembler_invariant (pending chunk : Chars) :
    '\n' ∉ (write pending chunk).2 ∧
    ((write pending chunk).2 = [] ∨
      (write pending chunk).2 = (pySplit '\n' (pending ++ chunk)).getLastD []) := by
  unfold write
  by_cases h : endsWithNl (pending ++ chunk)
  · simp [h]
  · simp only [h, Bool.false_eq_true, if_false]
    have hne := pySplit_ne_nil '\n' (pending ++ chunk)
    have hmem := getLastD_mem (pySplit '\n' (pending ++ chunk)) [] hne
    exact ⟨not_mem_of_mem_pySplit hmem, Or.inr trivial⟩

end SessionRecorder
